import Mathlib

/-!
# IndexNANG: the knowhere adapter around the NANG proximity-graph engine

A shallow embedding of `IndexNANG.h` / `IndexNANG.cpp`.

* The adapter holds one member, `index_`, a shared pointer to the graph
  engine (`efanna2e::IndexGraph`).  A null pointer is `none`.
* A C++ member function that may throw becomes a function returning the
  outcome (`Except Err _`) together with the index after the call: what was
  assigned before the throw stays assigned.
* The graph engine, the blob slicing utility and the `BinarySet` container are
  not part of the adapter.  The engine and the slicer are parameters of every
  operation (`Engine`, `Slicer`); what the specification promises about them is
  collected in the contracts further down.
* `float` values are never computed with by the adapter, so the embedding is
  generic in the type `F` of floats.
-/

namespace Knowhere

/-! ## Machine integers -/

/-- Conversion of an `int64_t` to `unsigned` (`paras.Set<unsigned>(..)`): reduction modulo `2^32`. -/
def toUnsigned (x : Int) : Nat := (x % 2 ^ 32).toNat

/-- Conversion of a stored integer to `int` (`.get<int>()`): two's complement wrap to 32 bits. -/
def toInt32 (x : Int) : Int := (x + 2 ^ 31) % 2 ^ 32 - 2 ^ 31

/-- The value an `unsigned` buffer slot keeps of what is written to it. -/
def asUnsigned (x : Nat) : Nat := x % 2 ^ 32

/-- Widening of an `unsigned` to `int64_t` (`p_id[..] = res[i][j]`): value preserving. -/
def unsignedToInt64 (x : Nat) : Int := Int.ofNat x

/-! ## Errors -/

/-- The ways a member function of the adapter can fail. -/
inductive Err where
  /-- A `KnowhereException` raised through `KNOWHERE_THROW_MSG(msg)`. -/
  | knowhere (msg : String)
  /-- The json exception of `config[key].get<T>()` on a key the config does not hold. -/
  | json (key : String)
  /-- A `std::length_error` of `std::vector` (size or resize with a negative count). -/
  | length
  /-- An exception of the graph engine that the adapter lets through uncaught. -/
  | engine (msg : String)
  /-- Dereference of a null `index_`: undefined behaviour, kept apart from every thrown error. -/
  | nullDeref
  deriving DecidableEq, Repr

/-! ## Data model -/

/-- A `Config` (json object), reduced to the keys the adapter reads. `none` is an absent key. -/
structure Config (F : Type) where
  K : Option Int
  L : Option Int
  iter : Option Int
  S : Option Int
  R : Option Int
  RANGE : Option Int
  PL : Option Int
  B : Option F
  M_NANG : Option F
  search_L : Option Int
  TOPK : Option Int
  INDEX_FILE_SLICE_SIZE_IN_MEGABYTE : Option Int

/-- A `Dataset` as read by `GET_TENSOR_DATA_DIM`: `meta::ROWS`, `meta::DIM` and the
row-major tensor behind `meta::TENSOR`. -/
structure Dataset (F : Type) where
  rows : Int
  dim : Int
  tensor : List F

/-- The build parameters handed to the engine (`efanna2e::Parameters`). -/
structure Parameters (F : Type) where
  K : Nat
  L : Nat
  iter : Nat
  S : Nat
  R : Nat
  RANGE : Nat
  PL : Nat
  B : F
  M : F

/-- Modelled from the spec: the `Binary` of knowhere/common/BinarySet.h (not among the
sources), one opaque byte array plus its length. -/
structure Binary where
  data : List Nat
  size : Int
  deriving DecidableEq, Repr

/-- Modelled from the spec: the `BinarySet` of knowhere/common/BinarySet.h (not among the
sources), a map from blob names to blobs. -/
abbrev BinarySet := List (String × Binary)

/-- Modelled from the spec: `BinarySet::Append`, which binds `name` to the blob, replacing an
earlier blob of that name. -/
def BinarySet.Append (bs : BinarySet) (name : String) (data : List Nat) (size : Int) : BinarySet :=
  (name, { data := data, size := size }) :: bs.filter (fun e => e.1 != name)

/-- Modelled from the spec: `BinarySet::GetByName`; `none` stands for the exception raised
when no blob has that name. -/
def BinarySet.GetByName (bs : BinarySet) (name : String) : Option Binary :=
  (bs.find? (fun e => e.1 == name)).map (fun e => e.2)

/-- An exclusion bitset (`faiss::BitsetView`); `none` is the null view. -/
abbrev BitsetView := Option (List Bool)

/-- The dataset returned by `Query`: the arrays stored under `meta::IDS` (`int64_t`) and
`meta::DISTANCE` (`float`). -/
structure QueryResult (F : Type) where
  ids : List Int
  dist : List F

/-- The graph engine `efanna2e::IndexGraph` as the adapter uses it. `G` is the engine's
state. A method that can throw returns the engine state it leaves behind and its outcome.
The search is called inside an OpenMP loop, where nothing can be thrown across, and is taken
to read the graph only. -/
structure Engine (G F : Type) where
  /-- Constructor `IndexGraph(efanna2e::L2, &init_index, a, b)` with its last two arguments. -/
  IndexGraph : Int → Int → G
  /-- Method `Build(n, data, paras)`. -/
  Build : G → Int → List F → Parameters F → G × Except String Unit
  /-- Method `saveIndex()`. -/
  saveIndex : G → G × Except String Unit
  /-- Method `getModelsave()`: the bytes of the last save. -/
  getModelsave : G → List Nat
  /-- Method `getModelsize()`. -/
  getModelsize : G → Int
  /-- Method `loadIndex(bytes)`: handed the pointer to the blob's bytes and no size. -/
  loadIndex : G → List Nat → G × Except String Unit
  /-- Method `SearchWithOptGraph(query, K, paras, indices, dists)`: for the query vector, `K` and
  `L_search`, what the call leaves in slot `j` of the two output buffers. -/
  SearchWithOptGraph : G → List F → Nat → Nat → Nat → Nat × F
  /-- Method `getNum()`. -/
  getNum : G → Int
  /-- Method `getDim()`. -/
  getDim : G → Int

/-- The blob slicing utility (`Disassemble` / `Assemble` of knowhere/common/Slice.h) as the
adapter uses it; an `error` is an exception. -/
structure Slicer where
  Disassemble : Int → BinarySet → Except String BinarySet
  Assemble : BinarySet → Except String BinarySet

/-- The adapter object: `index_` (null is `none`) and the inherited `index_size_`. -/
structure IndexNANG (G : Type) where
  index_ : Option G
  index_size_ : Int

namespace IndexNANG

variable {G F : Type}

/-- The read `config[key].get<T>()`. -/
def getKey {α : Type} (key : String) (v : Option α) : Except Err α :=
  match v with
  | some a => .ok a
  | none => .error (.json key)

/-- Lines 60-78 of `BuildAll`: the nine `paras.Set` calls, in source order. -/
def buildParas (config : Config F) : Except Err (Parameters F) := do
  let K ← getKey "K" config.K
  let L ← getKey "L" config.L
  let iter ← getKey "iter" config.iter
  let S ← getKey "S" config.S
  let R ← getKey "R" config.R
  let RANGE ← getKey "RANGE" config.RANGE
  let PL ← getKey "PL" config.PL
  let B ← getKey "B" config.B
  let M ← getKey "M_NANG" config.M_NANG
  pure { K := toUnsigned K, L := toUnsigned L, iter := toUnsigned iter, S := toUnsigned S,
         R := toUnsigned R, RANGE := toUnsigned RANGE, PL := toUnsigned PL, B := B, M := M }

/-- Member function `IndexNANG::BuildAll`. The new engine object is assigned to `index_`
before `Build` runs. The initializer `init_index(dim, rows)` handed to the constructor is made
of the same two numbers and is left out. -/
def BuildAll (E : Engine G F) (self : IndexNANG G) (origin : Dataset F) (config : Config F) :
    Except Err Unit × IndexNANG G :=
  match buildParas config with
  | .error e => (.error e, self)
  | .ok paras =>
    let built := E.Build (E.IndexGraph origin.dim origin.rows) origin.rows origin.tensor paras
    match built.2 with
    | .ok _ => (.ok (), { self with index_ := some built.1 })
    | .error m => (.error (.engine m), { self with index_ := some built.1 })

/-- Member function `IndexNANG::Serialize`. -/
def Serialize (E : Engine G F) (Sl : Slicer) (self : IndexNANG G) (config : Config F) :
    Except Err BinarySet × IndexNANG G :=
  match self.index_ with
  | none => (.error (.knowhere "index not initialize or trained"), self)
  | some g =>
    let saved := E.saveIndex g
    let self1 : IndexNANG G := { self with index_ := some saved.1 }
    match saved.2 with
    | .error m => (.error (.knowhere m), self1)
    | .ok _ =>
      let res_set := BinarySet.Append [] "NANG" (E.getModelsave saved.1) (E.getModelsize saved.1)
      match config.INDEX_FILE_SLICE_SIZE_IN_MEGABYTE with
      | none => (.ok res_set, self1)
      | some mb =>
        match Sl.Disassemble (mb * 1024 * 1024) res_set with
        | .ok sliced => (.ok sliced, self1)
        | .error m => (.error (.knowhere m), self1)

/-- Member function `IndexNANG::Load`. The placeholder engine object of shape 123 x 123 is assigned to
`index_` before `loadIndex` runs. -/
def Load (E : Engine G F) (Sl : Slicer) (self : IndexNANG G) (index_binary : BinarySet) :
    Except Err Unit × IndexNANG G :=
  match Sl.Assemble index_binary with
  | .error m => (.error (.knowhere m), self)
  | .ok assembled =>
    match BinarySet.GetByName assembled "NANG" with
    | none => (.error (.knowhere "map::at"), self)
    | some binary =>
      let loaded := E.loadIndex (E.IndexGraph 123 123) binary.data
      match loaded.2 with
      | .ok _ => (.ok (), { self with index_ := some loaded.1 })
      | .error m => (.error (.knowhere m), { self with index_ := some loaded.1 })

/-- The query vector of row `i`: the `dim` floats at `p_data + i * dim`. The engine is handed
that pointer; of a tensor of `rows * dim` floats, the `dim` floats of row `i` are what every
call, the last row's included, can read without running past the tensor. -/
def queryRow (ds : Dataset F) (i : Nat) : List F :=
  (ds.tensor.drop (i * ds.dim.toNat)).take ds.dim.toNat

/-- The buffer `res[i]` after the search call for query vector `q`: `search_k` slots of type `unsigned`. -/
def resRow (E : Engine G F) (g : G) (q : List F) (search_k L_search : Nat) : List Nat :=
  (List.range search_k).map
    (fun j => asUnsigned (E.SearchWithOptGraph g q search_k L_search j).1)

/-- The buffer `dis[i]` after the search call for query vector `q`: `search_k` slots of type `float`. -/
def disRow (E : Engine G F) (g : G) (q : List F) (search_k L_search : Nat) : List F :=
  (List.range search_k).map
    (fun j => (E.SearchWithOptGraph g q search_k L_search j).2)

/-- Lines 95-119 of `Query`: one search call per row `i` on the vector at `p_data + i * dim`,
then the copy loops `p_id[i * search_k + j] = res[i][j]` and
`p_dist[i * search_k + j] = dis[i][j]`, which fill both arrays in increasing position. -/
def gather (E : Engine G F) (g : G) (ds : Dataset F) (search_k L_search : Nat) : QueryResult F :=
  { ids := (List.range ds.rows.toNat).flatMap
      (fun i => (resRow E g (queryRow ds i) search_k L_search).map unsignedToInt64)
    dist := (List.range ds.rows.toNat).flatMap
      (fun i => disRow E g (queryRow ds i) search_k L_search) }

/-- Member function `IndexNANG::Query`. The `bitset` argument is not read anywhere in the body, and `index_`
is not tested before it is dereferenced inside the search loop. -/
def Query (E : Engine G F) (self : IndexNANG G) (dataset_ptr : Dataset F) (config : Config F)
    (_bitset : BitsetView) : Except Err (QueryResult F) × IndexNANG G :=
  match getKey "search_L" config.search_L with
  | .error e => (.error e, self)
  | .ok l =>
    let L_search := toUnsigned l
    match getKey "TOPK" config.TOPK with
    | .error e => (.error e, self)
    | .ok t =>
      let search_k := toInt32 t
      -- std::vector<std::vector<unsigned>> res(rows)
      if dataset_ptr.rows < 0 then (.error .length, self)
      -- res[i].resize(search_k), run once per row
      else if 0 < dataset_ptr.rows ∧ search_k < 0 then (.error .length, self)
      else
        match self.index_ with
        | none =>
          -- index_->SearchWithOptGraph(..) runs once per row
          if 0 < dataset_ptr.rows then (.error .nullDeref, self)
          else (.ok { ids := [], dist := [] }, self)
        | some g => (.ok (gather E g dataset_ptr search_k.toNat L_search), self)

/-- Member function `IndexNANG::Count`. -/
def Count (E : Engine G F) (self : IndexNANG G) : Except Err Int × IndexNANG G :=
  match self.index_ with
  | none => (.error (.knowhere "index not initialize"), self)
  | some g => (.ok (E.getNum g), self)

/-- Member function `IndexNANG::Dim`. -/
def Dim (E : Engine G F) (self : IndexNANG G) : Except Err Int × IndexNANG G :=
  match self.index_ with
  | none => (.error (.knowhere "index not initialize"), self)
  | some g => (.ok (E.getDim g), self)

/-- Member function `IndexNANG::UpdateIndexSize`. -/
def UpdateIndexSize (E : Engine G F) (self : IndexNANG G) : Except Err Unit × IndexNANG G :=
  match self.index_ with
  | none => (.error (.knowhere "index not initialize"), self)
  | some g => (.ok (), { self with index_size_ := E.getModelsize g })

/-- Member function `IndexNANG::Train` (IndexNANG.h). -/
def Train (self : IndexNANG G) (_dataset_ptr : Dataset F) (_config : Config F) :
    Except Err Unit × IndexNANG G :=
  (.error (.knowhere "NANG not support build item dynamically, please invoke BuildAll interface."),
    self)

/-- Member function `IndexNANG::AddWithoutIds` (IndexNANG.h). -/
def AddWithoutIds (self : IndexNANG G) (_dataset : Dataset F) (_config : Config F) :
    Except Err Unit × IndexNANG G :=
  (.error (.knowhere "Incremental index NANG is not supported"), self)

/-- Row `i` of a flat result array of row width `k`: positions `i * k .. i * k + k - 1`. -/
def rowOf {α : Type} (k : Nat) (flat : List α) (i : Nat) : List α :=
  (flat.drop (i * k)).take k

end IndexNANG

/-! ## What the specification promises about the parts outside the adapter -/

section Contracts

variable {G F : Type}

/-- Modelled from the spec: the build contract of the graph engine (efanna2e::IndexGraph,
whose code is not among the sources). "Graph node count equals VectorSet row count at build
time", and the graph reports the dimension it was built for: a successful `Build` of `rows > 0`
vectors on a graph constructed for `dim > 0` and `rows` makes `getNum` return `rows` and
`getDim` return `dim`. -/
def BuildContract (E : Engine G F) : Prop :=
  ∀ (dim rows : Int) (data : List F) (paras : Parameters F),
    0 < rows → 0 < dim →
    (E.Build (E.IndexGraph dim rows) rows data paras).2 = .ok () →
    E.getNum (E.Build (E.IndexGraph dim rows) rows data paras).1 = rows ∧
    E.getDim (E.Build (E.IndexGraph dim rows) rows data paras).1 = dim

/-- Two engine states that answer `getNum`, `getDim` and every search alike. -/
def SameAnswers (E : Engine G F) (g h : G) : Prop :=
  E.getNum g = E.getNum h ∧ E.getDim g = E.getDim h ∧
  ∀ (q : List F) (k l j : Nat),
    E.SearchWithOptGraph g q k l j = E.SearchWithOptGraph h q k l j

/-- Modelled from the spec: the encode/decode contract of the graph engine
(efanna2e::IndexGraph, whose code is not among the sources). "Serialize is read-only": a
successful `saveIndex` does not change what the graph answers. The blob "self-describes N and
D": `loadIndex` of the saved bytes into a graph constructed with any shape succeeds and
answers as the saved graph does, whatever the shape it was constructed with. -/
def CodecContract (E : Engine G F) : Prop :=
  ∀ (g : G), (E.saveIndex g).2 = .ok () →
    SameAnswers E (E.saveIndex g).1 g ∧
    ∀ (a b : Int),
      (E.loadIndex (E.IndexGraph a b) (E.getModelsave (E.saveIndex g).1)).2 = .ok () ∧
      SameAnswers E (E.loadIndex (E.IndexGraph a b) (E.getModelsave (E.saveIndex g).1)).1 g

/-- Modelled from the spec: the contract of the blob slicing utility (knowhere/common/Slice,
not among the sources) for a set holding the one blob `name`. `Assemble` hands an unsliced set
back with the blob in place, and "for any positive slice-size bound, reassembling produced
slices yields byte-identical content to the unsliced blob". -/
def SliceContract (Sl : Slicer) (name : String) : Prop :=
  (∀ (b : Binary), ∃ out, Sl.Assemble [(name, b)] = .ok out ∧
      ∃ b1, BinarySet.GetByName out name = some b1 ∧ b1.data = b.data) ∧
  (∀ (n : Int) (b : Binary) (sliced : BinarySet), 0 < n →
      Sl.Disassemble n [(name, b)] = .ok sliced →
      ∃ out, Sl.Assemble sliced = .ok out ∧
        ∃ b1, BinarySet.GetByName out name = some b1 ∧ b1.data = b.data)

end Contracts

/-! ## A small engine and slicer, to run the operations on concrete inputs -/

namespace Toy

/-- State of the small engine: the shape, and the bytes of the last save. -/
structure Graph where
  dim : Nat
  num : Nat
  model : List Nat
  deriving DecidableEq, Repr

/-- A number as bytes: that many bytes 1, closed by a byte 0. -/
def encodeNat (n : Nat) : List Nat := List.replicate n 1 ++ [0]

/-- Reads one number off the front of the bytes; `none` on a byte other than 0 or 1. The
decoder is given no size: it never fails for want of bytes, and reads a closing 0 where the
bytes given end. -/
def decodeNat : List Nat → Option (Nat × List Nat)
  | [] => some (0, [])
  | 0 :: rest => some (0, rest)
  | 1 :: rest => (decodeNat rest).map (fun r => (r.1 + 1, r.2))
  | _ :: _ => none

/-- The header of the small engine's blob: the row count, then the dimension. -/
def encode (g : Graph) : List Nat := encodeNat g.num ++ encodeNat g.dim

/-- Decoding into `g`: a blob with an unrecognised byte after the row count leaves `g` half
decoded. -/
def loadIndex (g : Graph) (bytes : List Nat) : Graph × Except String Unit :=
  match decodeNat bytes with
  | none => (g, .error "bad model: row count")
  | some (n, rest) =>
    match decodeNat rest with
    | none => ({ g with num := n }, .error "bad model: dimension")
    | some (d, _) => ({ dim := d, num := n, model := [] }, .ok ())

/-- The small engine over integer "floats": ids `0 .. num - 1` in order, the `unsigned`
value of `-1` in the slots past them, and distances that start at the query's first entry. -/
def engine : Engine Graph Int where
  IndexGraph a b := { dim := a.toNat, num := b.toNat, model := [] }
  Build g n _ _ := if n ≤ 0 then (g, .error "no data") else ({ g with num := n.toNat }, .ok ())
  saveIndex g := ({ g with model := encode g }, .ok ())
  getModelsave g := g.model
  getModelsize g := g.model.length
  loadIndex := loadIndex
  SearchWithOptGraph g q _ _ j := (if j < g.num then j else 4294967295, q.headD 0 + j)
  getNum g := g.num
  getDim g := g.dim

/-- The slicer that never slices. -/
def slicer : Slicer where
  Disassemble _ bs := .ok bs
  Assemble bs := .ok bs

/-- A config with the nine build parameters and the two search parameters of the unit test. -/
def conf : Config Int :=
  { K := some 200, L := some 220, iter := some 12, S := some 25, R := some 200,
    RANGE := some 40, PL := some 50, B := some 1, M_NANG := some 1,
    search_L := some 20, TOPK := some 10, INDEX_FILE_SLICE_SIZE_IN_MEGABYTE := none }

/-- Six base vectors of dimension 2. -/
def base : Dataset Int :=
  { rows := 6, dim := 2, tensor := [0, 0, 1, 1, 2, 2, 3, 3, 4, 4, 5, 5] }

/-- Two query vectors of dimension 2. -/
def queries : Dataset Int := { rows := 2, dim := 2, tensor := [5, 6, 7, 8] }

/-- A batch without rows. -/
def noQueries : Dataset Int := { rows := 0, dim := 2, tensor := [] }

/-- What the small engine, built over six points, answers to `queries` with TOPK = 10. -/
def answer : QueryResult Int :=
  { ids := [0, 1, 2, 3, 4, 5, 4294967295, 4294967295, 4294967295, 4294967295,
            0, 1, 2, 3, 4, 5, 4294967295, 4294967295, 4294967295, 4294967295]
    dist := [5, 6, 7, 8, 9, 10, 11, 12, 13, 14, 7, 8, 9, 10, 11, 12, 13, 14, 15, 16] }

/-- A never-built, never-loaded index. -/
def empty : IndexNANG Graph := { index_ := none, index_size_ := -1 }

/-- The index after `BuildAll` over `base`. -/
def ready : IndexNANG Graph := (IndexNANG.BuildAll engine empty base conf).2

end Toy

/-! ## Lifecycle: what each operation does to `index_` -/

namespace IndexNANG

variable {G F : Type}

theorem BuildAll_index_isSome (E : Engine G F) (self : IndexNANG G) (ds : Dataset F)
    (cfg : Config F) (h : self.index_.isSome = true) :
    (BuildAll E self ds cfg).2.index_.isSome = true := by
  unfold BuildAll
  dsimp only
  repeat' split
  all_goals first | exact h | rfl

theorem Load_index_isSome (E : Engine G F) (Sl : Slicer) (self : IndexNANG G) (bs : BinarySet)
    (h : self.index_.isSome = true) : (Load E Sl self bs).2.index_.isSome = true := by
  unfold Load
  dsimp only
  repeat' split
  all_goals first | exact h | rfl

theorem Serialize_index_isSome (E : Engine G F) (Sl : Slicer) (self : IndexNANG G)
    (cfg : Config F) (h : self.index_.isSome = true) :
    (Serialize E Sl self cfg).2.index_.isSome = true := by
  unfold Serialize
  dsimp only
  repeat' split
  all_goals first | exact h | rfl

theorem Query_state (E : Engine G F) (self : IndexNANG G) (ds : Dataset F) (cfg : Config F)
    (b : BitsetView) : (Query E self ds cfg b).2 = self := by
  unfold Query
  dsimp only
  repeat' split
  all_goals rfl

theorem Count_state (E : Engine G F) (self : IndexNANG G) : (Count E self).2 = self := by
  unfold Count
  split <;> rfl

theorem Dim_state (E : Engine G F) (self : IndexNANG G) : (Dim E self).2 = self := by
  unfold Dim
  split <;> rfl

theorem UpdateIndexSize_index (E : Engine G F) (self : IndexNANG G) :
    (UpdateIndexSize E self).2.index_ = self.index_ := by
  unfold UpdateIndexSize
  split <;> rfl

/-- C5: in every lifecycle state and for every dataset and config, `Train` and
`AddWithoutIds` fail with an error and leave the index, the held graph included, exactly as
it was before the call. -/
theorem train_and_add_fail_unchanged (self : IndexNANG G) (ds : Dataset F) (cfg : Config F) :
    (∃ msg, (Train self ds cfg).1 = .error (.knowhere msg)) ∧
    (Train self ds cfg).2 = self ∧
    (∃ msg, (AddWithoutIds self ds cfg).1 = .error (.knowhere msg)) ∧
    (AddWithoutIds self ds cfg).2 = self :=
  ⟨⟨_, rfl⟩, rfl, ⟨_, rfl⟩, rfl⟩

/-- C6, the code on an index that holds no graph: `Serialize`, `Count`, `Dim` and
`UpdateIndexSize` raise the uninitialized-index error and leave the index as it was, but
`Query` does not test `index_`. On a batch without rows, with both search keys in the config,
it raises nothing and returns a result with empty id and distance arrays; on a batch of one
row it dereferences the null `index_`. -/
theorem query_without_graph_returns (E : Engine G F) (Sl : Slicer) (size dim l t : Int)
    (tensor : List F) (cfg : Config F) (b : BitsetView) :
    Serialize E Sl { index_ := none, index_size_ := size } cfg
      = (.error (.knowhere "index not initialize or trained"),
          { index_ := none, index_size_ := size }) ∧
    Count E { index_ := none, index_size_ := size }
      = (.error (.knowhere "index not initialize"), { index_ := none, index_size_ := size }) ∧
    Dim E { index_ := none, index_size_ := size }
      = (.error (.knowhere "index not initialize"), { index_ := none, index_size_ := size }) ∧
    UpdateIndexSize E { index_ := none, index_size_ := size }
      = (.error (.knowhere "index not initialize"), { index_ := none, index_size_ := size }) ∧
    Query E { index_ := none, index_size_ := size } { rows := 0, dim := dim, tensor := tensor }
        { cfg with search_L := some l, TOPK := some t } b
      = (.ok { ids := [], dist := [] }, { index_ := none, index_size_ := size }) ∧
    Query E { index_ := none, index_size_ := size } { rows := 1, dim := dim, tensor := tensor }
        { cfg with search_L := some l, TOPK := some 10 } b
      = (.error .nullDeref, { index_ := none, index_size_ := size }) := by
  refine ⟨rfl, rfl, rfl, rfl, ?_, ?_⟩
  · simp [Query, getKey]
  · simp [Query, getKey, toInt32]

/-- C10: readiness is never lost. If the index holds a graph before a call of `BuildAll`,
`Load`, `Query`, `Serialize`, `Count`, `Dim`, `UpdateIndexSize`, `Train` or `AddWithoutIds`,
with any arguments, it holds a graph after the call, whether the call succeeded or failed. -/
theorem readiness_never_lost (E : Engine G F) (Sl : Slicer) (self : IndexNANG G)
    (h : self.index_.isSome = true) :
    (∀ ds cfg, (BuildAll E self ds cfg).2.index_.isSome = true) ∧
    (∀ bs, (Load E Sl self bs).2.index_.isSome = true) ∧
    (∀ ds cfg b, (Query E self ds cfg b).2.index_.isSome = true) ∧
    (∀ cfg, (Serialize E Sl self cfg).2.index_.isSome = true) ∧
    (Count E self).2.index_.isSome = true ∧
    (Dim E self).2.index_.isSome = true ∧
    (UpdateIndexSize E self).2.index_.isSome = true ∧
    (∀ (ds : Dataset F) (cfg : Config F), (Train self ds cfg).2.index_.isSome = true) ∧
    (∀ (ds : Dataset F) (cfg : Config F), (AddWithoutIds self ds cfg).2.index_.isSome = true) := by
  refine ⟨?_, ?_, ?_, ?_, ?_, ?_, ?_, ?_, ?_⟩
  · intro ds cfg
    exact BuildAll_index_isSome E self ds cfg h
  · intro bs
    exact Load_index_isSome E Sl self bs h
  · intro ds cfg b
    rw [Query_state]
    exact h
  · intro cfg
    exact Serialize_index_isSome E Sl self cfg h
  · rw [Count_state]
    exact h
  · rw [Dim_state]
    exact h
  · rw [UpdateIndexSize_index]
    exact h
  · intro _ _
    exact h
  · intro _ _
    exact h

/-- Witness of C10 on the small engine: the built index holds a graph, and so does the index
after each of the nine operations. -/
theorem readiness_never_lost_witness :
    Toy.ready.index_.isSome = true ∧
    ((∀ ds cfg, (BuildAll Toy.engine Toy.ready ds cfg).2.index_.isSome = true) ∧
    (∀ bs, (Load Toy.engine Toy.slicer Toy.ready bs).2.index_.isSome = true) ∧
    (∀ ds cfg b, (Query Toy.engine Toy.ready ds cfg b).2.index_.isSome = true) ∧
    (∀ cfg, (Serialize Toy.engine Toy.slicer Toy.ready cfg).2.index_.isSome = true) ∧
    (Count Toy.engine Toy.ready).2.index_.isSome = true ∧
    (Dim Toy.engine Toy.ready).2.index_.isSome = true ∧
    (UpdateIndexSize Toy.engine Toy.ready).2.index_.isSome = true ∧
    (∀ (ds : Dataset Int) (cfg : Config Int),
      (Train Toy.ready ds cfg).2.index_.isSome = true) ∧
    (∀ (ds : Dataset Int) (cfg : Config Int),
      (AddWithoutIds Toy.ready ds cfg).2.index_.isSome = true)) :=
  ⟨by decide, readiness_never_lost Toy.engine Toy.slicer Toy.ready (by decide)⟩

/-! ## Query: what the adapter checks and what it copies out -/

theorem toInt32_of_int_range (t : Int) (hlo : -2147483648 ≤ t) (hhi : t < 2147483648) :
    toInt32 t = t := by
  unfold toInt32
  omega

/-- C3, the code at any input and at the case of the unit test. The result of `Query`, and
the index it leaves, are the same for every exclusion bitset as for the null bitset: the
bitset is never read. On the small engine, built over six points, with ids 0 and 1 excluded
by the bitset, both rows of the result still start with ids 0 and 1. -/
theorem query_ignores_bitset :
    (∀ (G F : Type) (E : Engine G F) (self : IndexNANG G) (ds : Dataset F) (cfg : Config F)
        (bitset : BitsetView), Query E self ds cfg bitset = Query E self ds cfg none) ∧
    (Query Toy.engine Toy.ready Toy.queries Toy.conf (some [true, true])).1 = .ok Toy.answer ∧
    rowOf 10 Toy.answer.ids 0
      = [0, 1, 2, 3, 4, 5, 4294967295, 4294967295, 4294967295, 4294967295] ∧
    rowOf 10 Toy.answer.ids 1
      = [0, 1, 2, 3, 4, 5, 4294967295, 4294967295, 4294967295, 4294967295] :=
  ⟨fun _ _ _ _ _ _ _ => rfl, rfl, rfl, rfl⟩

theorem mem_gather_ids (E : Engine G F) (g : G) (ds : Dataset F) (k l : Nat) (x : Int)
    (hx : x ∈ (gather E g ds k l).ids) : 0 ≤ x ∧ x < 4294967296 := by
  simp only [gather, List.mem_flatMap, List.mem_map, resRow] at hx
  obtain ⟨i, _, u, ⟨j, _, hu⟩, hxu⟩ := hx
  subst hxu
  subst hu
  have hlt : (E.SearchWithOptGraph g (queryRow ds i) k l j).1 % 2 ^ 32 < 2 ^ 32 :=
    Nat.mod_lt _ (by norm_num)
  simp only [unsignedToInt64, asUnsigned]
  constructor
  · exact Int.ofNat_nonneg _
  · have := Int.ofNat_lt.mpr hlt
    simpa using this

/-- C4, the code at any input: whatever the engine writes into its `unsigned` output buffer,
every entry of the id array that `Query` returns lies in `0 .. 2^32 - 1`. No slot of a result
row, trailing or not, ever holds `-1`. -/
theorem query_ids_never_minus_one (E : Engine G F) (self : IndexNANG G) (ds : Dataset F)
    (cfg : Config F) (bitset : BitsetView) (r : QueryResult F)
    (h : (Query E self ds cfg bitset).1 = .ok r) :
    ∀ x ∈ r.ids, 0 ≤ x ∧ x < 4294967296 ∧ x ≠ -1 := by
  intro x hx
  have key : 0 ≤ x ∧ x < 4294967296 := by
    unfold Query at h
    dsimp only at h
    repeat' split at h
    all_goals first
      | (simp only [reduceCtorEq] at h; done)
      | (simp only [Except.ok.injEq] at h
         subst h
         first
           | exact mem_gather_ids _ _ _ _ _ x hx
           | simp at hx)
  exact ⟨key.1, key.2, by omega⟩

/-- Witness of C4 on the small engine, at the case of the unit test (six points, TOPK = 10):
slots 6 .. 9 of each row hold 4294967295, the `unsigned` sentinel widened to 64 bits. -/
theorem query_ids_never_minus_one_witness :
    (Query Toy.engine Toy.ready Toy.queries Toy.conf none).1 = .ok Toy.answer ∧
    rowOf 10 Toy.answer.ids 0 = [0, 1, 2, 3, 4, 5, 4294967295, 4294967295, 4294967295, 4294967295] ∧
    ∀ x ∈ Toy.answer.ids, 0 ≤ x ∧ x < 4294967296 ∧ x ≠ -1 :=
  ⟨rfl, rfl, query_ids_never_minus_one Toy.engine Toy.ready Toy.queries Toy.conf none _ rfl⟩

/-- C8 as stated fails: on a Ready index, with TOPK = 0 and L_search = 0, `Query` on a batch
without rows raises no error and returns a result. -/
theorem query_accepts_zero_topk_and_zero_search_L :
    Toy.ready.index_.isSome = true ∧
    (Query Toy.engine Toy.ready Toy.noQueries
        { Toy.conf with TOPK := some 0, search_L := some 0 } none).1
      = .ok { ids := [], dist := [] } :=
  ⟨rfl, rfl⟩

/-- C8 amended: for every index and every query batch of at least one row, `Query` with a
config that holds both search keys and a negative TOPK (within `int` range) fails with the
length error of the result-buffer resize, returns no result and leaves the index as it was. -/
theorem query_negative_topk_fails (E : Engine G F) (self : IndexNANG G) (ds : Dataset F)
    (cfg : Config F) (bitset : BitsetView) (l t : Int)
    (hl : cfg.search_L = some l) (ht : cfg.TOPK = some t)
    (hrows : 0 < ds.rows) (hlo : -2147483648 ≤ t) (hneg : t < 0) :
    Query E self ds cfg bitset = (.error .length, self) := by
  have ht32 : toInt32 t = t := toInt32_of_int_range t hlo (by omega)
  have hnot : ¬ ds.rows < 0 := by omega
  simp [Query, getKey, hl, ht, ht32, hnot, hrows, hneg]

/-- Witness of the amended C8 on the small engine: two query rows, TOPK = -1. -/
theorem query_negative_topk_fails_witness :
    Query Toy.engine Toy.ready Toy.queries { Toy.conf with TOPK := some (-1) } none
      = (.error .length, Toy.ready) :=
  query_negative_topk_fails Toy.engine Toy.ready Toy.queries
    { Toy.conf with TOPK := some (-1) } none 20 (-1) rfl rfl (by decide) (by decide) (by decide)

/-! ## Load and BuildAll: the order of assignment and engine call -/

/-- When the set holds no blob named "NANG", `Load` fails and leaves the index as it was. -/
theorem Load_missing_blob (E : Engine G F) (Sl : Slicer) (self : IndexNANG G)
    (bs assembled : BinarySet) (ha : Sl.Assemble bs = .ok assembled)
    (hmiss : BinarySet.GetByName assembled "NANG" = none) :
    Load E Sl self bs = (.error (.knowhere "map::at"), self) := by
  simp [Load, ha, hmiss]

/-- When reassembling the set raises an error, `Load` fails and leaves the index as it was. -/
theorem Load_assemble_error (E : Engine G F) (Sl : Slicer) (self : IndexNANG G)
    (bs : BinarySet) (msg : String) (ha : Sl.Assemble bs = .error msg) :
    Load E Sl self bs = (.error (.knowhere msg), self) := by
  simp [Load, ha]

/-- When the engine's `loadIndex` raises an error on the blob named "NANG", `Load` fails and
the index holds the graph object constructed with shape 123 x 123 for the decode, in the
state the failed decode left it. -/
theorem Load_decode_error (E : Engine G F) (Sl : Slicer) (self : IndexNANG G)
    (bs assembled : BinarySet) (binary : Binary) (msg : String)
    (ha : Sl.Assemble bs = .ok assembled)
    (hb : BinarySet.GetByName assembled "NANG" = some binary)
    (hfail : (E.loadIndex (E.IndexGraph 123 123) binary.data).2 = .error msg) :
    Load E Sl self bs
      = (.error (.knowhere msg),
          { self with index_ := some (E.loadIndex (E.IndexGraph 123 123) binary.data).1 }) := by
  simp [Load, ha, hb, hfail]

/-- C7 as stated fails: on an engine whose `loadIndex` rejects an unrecognised byte, an index
that holds a graph of 6 points of dimension 2 is given a set whose blob "NANG" has such a byte
after the row count. `Load` fails, and the index then holds a graph of 2 points of dimension
123: the placeholder, partly decoded. That is neither the graph held before nor no graph. -/
theorem failed_load_replaces_graph :
    Toy.ready.index_ = some { dim := 2, num := 6, model := [] } ∧
    (Load Toy.engine Toy.slicer Toy.ready [("NANG", { data := [1, 1, 0, 2], size := 4 })]).1
      = .error (.knowhere "bad model: dimension") ∧
    (Load Toy.engine Toy.slicer Toy.ready [("NANG", { data := [1, 1, 0, 2], size := 4 })]).2.index_
      = some { dim := 123, num := 2, model := [] } ∧
    (Load Toy.engine Toy.slicer Toy.ready [("NANG", { data := [1, 1, 0, 2], size := 4 })]).2.index_
      ≠ Toy.ready.index_ ∧
    (Load Toy.engine Toy.slicer Toy.ready [("NANG", { data := [1, 1, 0, 2], size := 4 })]).2.index_
      ≠ none := by
  refine ⟨rfl, rfl, rfl, ?_, ?_⟩ <;> decide

/-- C7 amended: for every index state and every BinarySet on which `Load` fails, one of two
things holds. Either the failure came before the decode (reassembly raised, or the set has no
blob named "NANG") and the index is exactly as it was before the call. Or the engine's
`loadIndex` raised on the blob, and the index holds the graph object that `Load` constructed
with shape 123 x 123 for the decode, in the state the failed decode left it; everything else
of the index is as before. -/
theorem failed_load_state (E : Engine G F) (Sl : Slicer) (self : IndexNANG G)
    (bs : BinarySet) (e : Err) (hfail : (Load E Sl self bs).1 = .error e) :
    (((∃ msg, Sl.Assemble bs = .error msg) ∨
        (∃ assembled, Sl.Assemble bs = .ok assembled ∧
          BinarySet.GetByName assembled "NANG" = none)) ∧
      (Load E Sl self bs).2 = self) ∨
    (∃ assembled binary msg, Sl.Assemble bs = .ok assembled ∧
        BinarySet.GetByName assembled "NANG" = some binary ∧
        (E.loadIndex (E.IndexGraph 123 123) binary.data).2 = .error msg ∧
        (Load E Sl self bs).2
          = { self with index_ := some (E.loadIndex (E.IndexGraph 123 123) binary.data).1 }) := by
  cases ha : Sl.Assemble bs with
  | error msg =>
    left
    exact ⟨Or.inl ⟨msg, rfl⟩, by rw [Load_assemble_error E Sl self bs msg ha]⟩
  | ok assembled =>
    cases hb : BinarySet.GetByName assembled "NANG" with
    | none =>
      left
      exact ⟨Or.inr ⟨assembled, rfl, hb⟩, by rw [Load_missing_blob E Sl self bs assembled ha hb]⟩
    | some binary =>
      cases hl : (E.loadIndex (E.IndexGraph 123 123) binary.data).2 with
      | error msg =>
        right
        exact ⟨assembled, binary, msg, rfl, hb, hl,
          by rw [Load_decode_error E Sl self bs assembled binary msg ha hb hl]⟩
      | ok u =>
        have hok : (Load E Sl self bs).1 = .ok () := by simp [Load, ha, hb, hl]
        rw [hok] at hfail
        exact absurd hfail (by simp)

/-- Witness of the amended C7 on the small engine: the failed `Load` of a set with no blob
named "NANG", which leaves the index as it was. -/
theorem failed_load_state_witness :
    (((∃ msg, Toy.slicer.Assemble [("RAW_DATA", { data := [1, 0], size := 2 })] = .error msg) ∨
        (∃ assembled,
          Toy.slicer.Assemble [("RAW_DATA", { data := [1, 0], size := 2 })] = .ok assembled ∧
          BinarySet.GetByName assembled "NANG" = none)) ∧
      (Load Toy.engine Toy.slicer Toy.ready [("RAW_DATA", { data := [1, 0], size := 2 })]).2
        = Toy.ready) ∨
    (∃ assembled binary msg,
        Toy.slicer.Assemble [("RAW_DATA", { data := [1, 0], size := 2 })] = .ok assembled ∧
        BinarySet.GetByName assembled "NANG" = some binary ∧
        (Toy.engine.loadIndex (Toy.engine.IndexGraph 123 123) binary.data).2 = .error msg ∧
        (Load Toy.engine Toy.slicer Toy.ready [("RAW_DATA", { data := [1, 0], size := 2 })]).2
          = { Toy.ready with
              index_ := some (Toy.engine.loadIndex (Toy.engine.IndexGraph 123 123) binary.data).1 }) :=
  failed_load_state Toy.engine Toy.slicer Toy.ready
    [("RAW_DATA", { data := [1, 0], size := 2 })] (.knowhere "map::at") rfl

/-- The call `BuildAll` succeeds exactly when the config holds the nine build parameters and the
engine's `Build` succeeds. -/
theorem BuildAll_ok_iff (E : Engine G F) (self : IndexNANG G) (origin : Dataset F)
    (config : Config F) :
    (BuildAll E self origin config).1 = .ok () ↔
      ∃ paras, buildParas config = .ok paras ∧
        (E.Build (E.IndexGraph origin.dim origin.rows) origin.rows origin.tensor paras).2
          = .ok () := by
  unfold BuildAll
  dsimp only
  cases hp : buildParas config with
  | error e => simp
  | ok paras =>
    cases hb : (E.Build (E.IndexGraph origin.dim origin.rows) origin.rows origin.tensor paras).2
      with
    | error m => simp [hb]
    | ok u => simp [hb]

/-- The config holds the nine build parameters exactly when reading them succeeds. -/
theorem buildParas_ok_iff (config : Config F) :
    (∃ paras, buildParas config = .ok paras) ↔
      (config.K.isSome ∧ config.L.isSome ∧ config.iter.isSome ∧ config.S.isSome ∧
       config.R.isSome ∧ config.RANGE.isSome ∧ config.PL.isSome ∧ config.B.isSome ∧
       config.M_NANG.isSome) := by
  obtain ⟨K, L, iter, S, R, RANGE, PL, B, M, sl, tk, sz⟩ := config
  cases K <;> cases L <;> cases iter <;> cases S <;> cases R <;> cases RANGE <;> cases PL <;>
    cases B <;> cases M <;>
    simp [buildParas, getKey, bind, Except.bind, pure, Except.pure]

/-- C1: for every dataset with N > 0 rows and D > 0 dimensions, every config and every state
of the index (no graph, or an earlier graph), a successful `BuildAll` (which takes a config
with all nine build parameters) leaves the index holding a graph, with `Count()` returning N
and `Dim()` returning D. The engine is any engine that keeps the build contract. -/
theorem buildAll_count_dim (E : Engine G F) (hE : BuildContract E) (self : IndexNANG G)
    (origin : Dataset F) (config : Config F)
    (hN : 0 < origin.rows) (hD : 0 < origin.dim)
    (hok : (BuildAll E self origin config).1 = .ok ()) :
    (config.K.isSome ∧ config.L.isSome ∧ config.iter.isSome ∧ config.S.isSome ∧
       config.R.isSome ∧ config.RANGE.isSome ∧ config.PL.isSome ∧ config.B.isSome ∧
       config.M_NANG.isSome) ∧
    (BuildAll E self origin config).2.index_.isSome = true ∧
    (Count E (BuildAll E self origin config).2).1 = .ok origin.rows ∧
    (Dim E (BuildAll E self origin config).2).1 = .ok origin.dim := by
  obtain ⟨paras, hp, hb⟩ := (BuildAll_ok_iff E self origin config).mp hok
  obtain ⟨hnum, hdim⟩ := hE origin.dim origin.rows origin.tensor paras hN hD hb
  refine ⟨(buildParas_ok_iff config).mp ⟨paras, hp⟩, ?_, ?_, ?_⟩
  · simp [BuildAll, hp, hb]
  · simp [BuildAll, hp, hb, Count, hnum]
  · simp [BuildAll, hp, hb, Dim, hdim]

/-- The small engine keeps the build contract. -/
theorem Toy_engine_BuildContract : BuildContract Toy.engine := by
  intro dim rows data paras hrows hdim _
  have hle : ¬ rows ≤ 0 := by omega
  simp only [Toy.engine, hle, if_false]
  constructor
  · exact Int.toNat_of_nonneg (by omega)
  · exact Int.toNat_of_nonneg (by omega)

/-- Witness of C1 on the small engine: `BuildAll` over six points of dimension 2 succeeds,
from the empty index and from the built one, and then `Count()` is 6 and `Dim()` is 2. -/
theorem buildAll_count_dim_witness :
    (BuildAll Toy.engine Toy.empty Toy.base Toy.conf).1 = .ok () ∧
    (BuildAll Toy.engine Toy.ready Toy.base Toy.conf).1 = .ok () ∧
    (Count Toy.engine (BuildAll Toy.engine Toy.ready Toy.base Toy.conf).2).1 = .ok 6 ∧
    (Dim Toy.engine (BuildAll Toy.engine Toy.ready Toy.base Toy.conf).2).1 = .ok 2 :=
  ⟨rfl, rfl,
    (buildAll_count_dim Toy.engine Toy_engine_BuildContract Toy.ready Toy.base Toy.conf
      (by decide) (by decide) rfl).2.2⟩

/-! ## Serialize followed by Load -/

theorem gather_congr (E : Engine G F) (g h : G) (hsame : SameAnswers E g h) (ds : Dataset F)
    (k l : Nat) : gather E g ds k l = gather E h ds k l := by
  have hs : E.SearchWithOptGraph g = E.SearchWithOptGraph h := by
    funext q k l j
    exact hsame.2.2 q k l j
  simp only [gather, resRow, disRow, hs]

/-- Two indexes whose graphs answer alike give the same outcome of `Query`. -/
theorem Query_congr (E : Engine G F) (s1 s2 : IndexNANG G) (g h : G)
    (h1 : s1.index_ = some g) (h2 : s2.index_ = some h) (hsame : SameAnswers E g h)
    (ds : Dataset F) (cfg : Config F) (b1 b2 : BitsetView) :
    (Query E s1 ds cfg b1).1 = (Query E s2 ds cfg b2).1 := by
  simp only [Query, h1, h2, gather_congr E g h hsame]
  repeat' split
  all_goals rfl

theorem Load_ok (E : Engine G F) (Sl : Slicer) (self : IndexNANG G)
    (bs assembled : BinarySet) (binary : Binary)
    (ha : Sl.Assemble bs = .ok assembled)
    (hb : BinarySet.GetByName assembled "NANG" = some binary)
    (hl : (E.loadIndex (E.IndexGraph 123 123) binary.data).2 = .ok ()) :
    Load E Sl self bs
      = (.ok (), { self with index_ := some (E.loadIndex (E.IndexGraph 123 123) binary.data).1 }) := by
  simp [Load, ha, hb, hl]

/-- What a successful `Serialize` returns: the engine saved its model, and the set is either
the one blob "NANG" with the saved bytes, or what `Disassemble` made of that set for the
slice size of the config. -/
theorem Serialize_ok (E : Engine G F) (Sl : Slicer) (x : IndexNANG G) (g : G)
    (hx : x.index_ = some g) (config : Config F) (bs : BinarySet)
    (hser : (Serialize E Sl x config).1 = .ok bs) :
    (E.saveIndex g).2 = .ok () ∧
    ((config.INDEX_FILE_SLICE_SIZE_IN_MEGABYTE = none ∧
        bs = [("NANG", { data := E.getModelsave (E.saveIndex g).1,
                         size := E.getModelsize (E.saveIndex g).1 })]) ∨
     (∃ mb, config.INDEX_FILE_SLICE_SIZE_IN_MEGABYTE = some mb ∧
        Sl.Disassemble (mb * 1024 * 1024)
          [("NANG", { data := E.getModelsave (E.saveIndex g).1,
                      size := E.getModelsize (E.saveIndex g).1 })] = .ok bs)) := by
  unfold Serialize at hser
  rw [hx] at hser
  dsimp only at hser
  cases hs : (E.saveIndex g).2 with
  | error m => rw [hs] at hser; simp at hser
  | ok u =>
    rw [hs] at hser
    dsimp only at hser
    refine ⟨rfl, ?_⟩
    cases hc : config.INDEX_FILE_SLICE_SIZE_IN_MEGABYTE with
    | none =>
      rw [hc] at hser
      left
      refine ⟨rfl, ?_⟩
      simp only [Except.ok.injEq] at hser
      rw [← hser]
      rfl
    | some mb =>
      rw [hc] at hser
      right
      refine ⟨mb, rfl, ?_⟩
      dsimp only at hser
      cases hd : Sl.Disassemble (mb * 1024 * 1024)
          (BinarySet.Append [] "NANG" (E.getModelsave (E.saveIndex g).1)
            (E.getModelsize (E.saveIndex g).1)) with
      | error m => rw [hd] at hser; simp at hser
      | ok sliced =>
        rw [hd] at hser
        simp only [Except.ok.injEq] at hser
        rw [← hser]
        exact hd

/-- C2: for every index `x` that holds a graph, if `x.Serialize` returns a BinarySet (with no
slice size in the config, or a positive one), then `Load` of that set, on any index, succeeds
and yields an index whose `Count()` and `Dim()` are those of `x`, not the placeholder shape,
and whose `Query` outcome is that of `x` for every query batch, config and bitset. The
engine and the slicer are any that keep the codec and slicing contracts. -/
theorem load_of_serialize (E : Engine G F) (Sl : Slicer) (hE : CodecContract E)
    (hS : SliceContract Sl "NANG") (x y : IndexNANG G) (g : G) (hx : x.index_ = some g)
    (config : Config F)
    (hpos : ∀ mb, config.INDEX_FILE_SLICE_SIZE_IN_MEGABYTE = some mb → 0 < mb)
    (bs : BinarySet) (hser : (Serialize E Sl x config).1 = .ok bs) :
    (Load E Sl y bs).1 = .ok () ∧
    (Count E (Load E Sl y bs).2).1 = (Count E x).1 ∧
    (Dim E (Load E Sl y bs).2).1 = (Dim E x).1 ∧
    ∀ (ds : Dataset F) (cfg : Config F) (bitset : BitsetView),
      (Query E (Load E Sl y bs).2 ds cfg bitset).1 = (Query E x ds cfg bitset).1 := by
  obtain ⟨hsave, hbs⟩ := Serialize_ok E Sl x g hx config bs hser
  obtain ⟨_, hdec⟩ := hE g hsave
  -- the reassembled set holds the saved bytes under "NANG"
  have hasm : ∃ out, Sl.Assemble bs = .ok out ∧
      ∃ b1, BinarySet.GetByName out "NANG" = some b1 ∧
        b1.data = E.getModelsave (E.saveIndex g).1 := by
    rcases hbs with ⟨_, hbs⟩ | ⟨mb, hmb, hdis⟩
    · rw [hbs]
      exact hS.1 _
    · have hmbpos : 0 < mb * 1024 * 1024 := by
        have := hpos mb hmb
        omega
      exact hS.2 _ _ bs hmbpos hdis
  obtain ⟨out, ha, b1, hb1, hdata⟩ := hasm
  obtain ⟨hlok, hans⟩ := hdec 123 123
  rw [← hdata] at hlok hans
  have hload := Load_ok E Sl y bs out b1 ha hb1 hlok
  refine ⟨by rw [hload], ?_, ?_, ?_⟩
  · rw [hload]
    simp only [Count, hx, hans.1]
  · rw [hload]
    simp only [Dim, hx, hans.2.1]
  · intro ds cfg bitset
    rw [hload]
    exact Query_congr E _ x _ g rfl hx hans ds cfg bitset bitset

theorem Toy_decodeNat_encodeNat (n : Nat) (rest : List Nat) :
    Toy.decodeNat (Toy.encodeNat n ++ rest) = some (n, rest) := by
  induction n with
  | zero => simp [Toy.encodeNat, Toy.decodeNat]
  | succ k ih =>
    have hk : Toy.encodeNat (k + 1) ++ rest = 1 :: (Toy.encodeNat k ++ rest) := by
      simp [Toy.encodeNat, List.replicate_succ]
    rw [hk]
    simp only [Toy.decodeNat, ih, Option.map_some']

/-- The small engine keeps the codec contract. -/
theorem Toy_engine_CodecContract : CodecContract Toy.engine := by
  intro g _
  refine ⟨⟨rfl, rfl, fun _ _ _ _ => rfl⟩, fun a b => ?_⟩
  have h1 : Toy.decodeNat (Toy.encode g) = some (g.num, Toy.encodeNat g.dim) :=
    Toy_decodeNat_encodeNat g.num _
  have h2 : Toy.decodeNat (Toy.encodeNat g.dim) = some (g.dim, []) := by
    have := Toy_decodeNat_encodeNat g.dim []
    simpa using this
  have hl : Toy.loadIndex { dim := a.toNat, num := b.toNat, model := [] } (Toy.encode g)
      = ({ dim := g.dim, num := g.num, model := [] }, .ok ()) := by
    simp only [Toy.loadIndex, h1, h2]
  simp only [Toy.engine, hl]
  exact ⟨trivial, rfl, rfl, fun _ _ _ _ => rfl⟩

/-- The slicer that never slices keeps the slicing contract. -/
theorem Toy_slicer_SliceContract (name : String) : SliceContract Toy.slicer name := by
  constructor
  · intro b
    exact ⟨[(name, b)], rfl, b, by simp [BinarySet.GetByName], rfl⟩
  · intro n b sliced _ hd
    have hs : sliced = [(name, b)] := by
      simp only [Toy.slicer, Except.ok.injEq] at hd
      exact hd.symm
    subst hs
    exact ⟨[(name, b)], rfl, b, by simp [BinarySet.GetByName], rfl⟩

/-- Witness of C2 on the small engine: the built index (6 points of dimension 2) is
serialized and loaded into a fresh index, which then reports 6 and 2, not 123 and 123. -/
theorem load_of_serialize_witness :
    (Serialize Toy.engine Toy.slicer Toy.ready Toy.conf).1
      = .ok [("NANG", { data := [1, 1, 1, 1, 1, 1, 0, 1, 1, 0], size := 10 })] ∧
    (Load Toy.engine Toy.slicer Toy.empty
        [("NANG", { data := [1, 1, 1, 1, 1, 1, 0, 1, 1, 0], size := 10 })]).1 = .ok () ∧
    (Count Toy.engine (Load Toy.engine Toy.slicer Toy.empty
        [("NANG", { data := [1, 1, 1, 1, 1, 1, 0, 1, 1, 0], size := 10 })]).2).1
      = (Count Toy.engine Toy.ready).1 ∧
    (Dim Toy.engine (Load Toy.engine Toy.slicer Toy.empty
        [("NANG", { data := [1, 1, 1, 1, 1, 1, 0, 1, 1, 0], size := 10 })]).2).1
      = (Dim Toy.engine Toy.ready).1 ∧
    ∀ (ds : Dataset Int) (cfg : Config Int) (bitset : BitsetView),
      (Query Toy.engine (Load Toy.engine Toy.slicer Toy.empty
        [("NANG", { data := [1, 1, 1, 1, 1, 1, 0, 1, 1, 0], size := 10 })]).2 ds cfg bitset).1
        = (Query Toy.engine Toy.ready ds cfg bitset).1 :=
  ⟨rfl, load_of_serialize Toy.engine Toy.slicer Toy_engine_CodecContract
    (Toy_slicer_SliceContract "NANG") Toy.ready Toy.empty { dim := 2, num := 6, model := [] } rfl
    Toy.conf (by intro mb h; simp [Toy.conf] at h) _ rfl⟩

/-! ## Query: the layout of the result rows -/

/-- On an index that holds a graph, `Query` returns a result whenever the config holds both
search keys, the batch has no negative row count, and TOPK read as an `int` is not negative. -/
theorem Query_ok_of_ready (E : Engine G F) (self : IndexNANG G) (g : G)
    (hg : self.index_ = some g) (ds : Dataset F) (cfg : Config F) (bitset : BitsetView)
    (l t : Int) (hl : cfg.search_L = some l) (ht : cfg.TOPK = some t)
    (hrows : 0 ≤ ds.rows) (hk : 0 ≤ toInt32 t) :
    (Query E self ds cfg bitset).1 = .ok (gather E g ds (toInt32 t).toNat (toUnsigned l)) := by
  have h1 : ¬ ds.rows < 0 := by omega
  have h2 : ¬ toInt32 t < 0 := by omega
  simp [Query, getKey, hl, ht, hg, h1, h2]

end IndexNANG

end Knowhere
